import Mathlib

/-!
Shallow embedding of the Loop Box pricing engine (`calculations.py`).

Python numbers are modelled as exact rationals (`ℚ`).  The single genuine
runtime exception of the engine — Python's `ZeroDivisionError`, raised by the
unguarded division `container_cost / container_lifespan` when
`container_lifespan = 0` — is modelled with `Except PyError`.  The `+inf`
sentinel that the break-even calculator returns (Python `float('inf')`) is
modelled by `FloatVal`, a rational extended with a single point at infinity.
-/

namespace LoopBox

/-- Python `ZeroDivisionError`: the only exception the engine can raise. -/
inductive PyError where
  | divisionByZero : PyError
deriving DecidableEq, Repr

/-- A Python float value as produced by the engine: either a finite number
(idealised as an exact rational) or the `float('inf')` sentinel. -/
inductive FloatVal where
  | fin : ℚ → FloatVal
  | inf : FloatVal
deriving DecidableEq, Repr, Inhabited

namespace FloatVal

/-- Division of a (possibly infinite) value by a finite rational.  The engine
only ever divides by a strictly positive denominator (each division is behind a
`> 0` guard), where Python gives `inf / q = inf` and ordinary division on finite
values. -/
def divQ : FloatVal → ℚ → FloatVal
  | fin a, q => fin (a / q)
  | inf, _ => inf

/-- Multiplication of a (possibly infinite) value by a finite rational.  The
engine only multiplies by the positive constant `12`, where Python gives
`inf * q = inf`. -/
def mulQ : FloatVal → ℚ → FloatVal
  | fin a, q => fin (a * q)
  | inf, _ => inf

/-- The strict order of Python floats restricted to the values the engine can
produce: finite values compare as rationals and every finite value is below
`inf`. -/
def blt : FloatVal → FloatVal → Bool
  | fin a, fin b => decide (a < b)
  | fin _, inf => true
  | inf, _ => false

instance instLT : LT FloatVal := ⟨fun a b => blt a b = true⟩

instance (a b : FloatVal) : Decidable (a < b) :=
  inferInstanceAs (Decidable (blt a b = true))

end FloatVal

/-- The `pricing` assumption bundle (dict keys used by the engine, plus the
`container_price` and `incentive` keys carried by the dashboard). -/
structure Pricing where
  container_price : ℚ
  monthly_fee : ℚ
  setup_fee : ℚ
  per_use_fee : ℚ
  deposit : ℚ
  incentive : ℚ
  green_fee : ℚ
  revenue_share_pct : ℚ
deriving DecidableEq, Repr

/-- The `volume` assumption bundle. -/
structure Volume where
  restaurants : ℚ
  new_restaurants : ℚ
  orders_per_day : ℚ
  operating_days : ℚ
  collection_rate : ℚ
  shrinkage : ℚ
  zomato_orders_per_day : ℚ
  zomato_operating_days : ℚ
deriving DecidableEq, Repr

/-- The `cogs` assumption bundle. -/
structure Cogs where
  container_cost : ℚ
  container_lifespan : ℚ
  wash_cost : ℚ
  collection_cost : ℚ
  qc_batch_cost : ℚ
  batches_per_month : ℚ
deriving DecidableEq, Repr

/-- The `opex` assumption bundle. -/
structure Opex where
  technology : ℚ
  marketing : ℚ
  ga : ℚ
  num_sales_people : ℚ
  avg_salary : ℚ
  num_hubs : ℚ
  rent_per_hub : ℚ
  utilities_per_hub : ℚ
  workers_per_hub : ℚ
  worker_salary : ℚ
deriving DecidableEq, Repr

/-- Return value of `calculate_revenue`. -/
structure RevenueBreakdown where
  total_orders : ℚ
  usage_revenue : ℚ
  subscription_revenue : ℚ
  setup_revenue : ℚ
  shrinkage_revenue : ℚ
  aggregator_revenue : ℚ
  total_revenue : ℚ
deriving DecidableEq, Repr

/-- Return value of `calculate_cogs`. -/
structure CogsBreakdown where
  amortization : ℚ
  washing : ℚ
  collection : ℚ
  qc : ℚ
  total_cogs : ℚ
  amortization_per_order : ℚ
deriving DecidableEq, Repr

/-- Return value of `calculate_opex`. -/
structure OpexBreakdown where
  technology : ℚ
  marketing : ℚ
  sales_salaries : ℚ
  ga : ℚ
  facility_costs : ℚ
  total_opex : ℚ
deriving DecidableEq, Repr

/-- Return value of `calculate_other_items`. -/
structure OtherItems where
  depreciation : ℚ
  interest : ℚ
deriving DecidableEq, Repr

/-- Return value of `calculate_full_income_statement`. -/
structure IncomeStatement where
  revenue : RevenueBreakdown
  cogs : CogsBreakdown
  gross_profit : ℚ
  gross_margin : ℚ
  opex : OpexBreakdown
  ebitda : ℚ
  ebitda_margin : ℚ
  other : OtherItems
  net_income : ℚ
  net_margin : ℚ
deriving DecidableEq, Repr

/-- Return value of `calculate_unit_economics`. -/
structure UnitEconomics where
  revenue_per_order : ℚ
  cogs_per_order : ℚ
  gross_profit_per_order : ℚ
  opex_per_order : ℚ
deriving DecidableEq, Repr

/-- Return value of `calculate_breakeven`.  The first four fields are always
finite; the three break-even metrics can be the `inf` sentinel. -/
structure BreakevenResult where
  fixed_costs_annual : ℚ
  variable_cost_per_order : ℚ
  revenue_per_order : ℚ
  contribution_margin_per_order : ℚ
  breakeven_orders : FloatVal
  breakeven_restaurants : FloatVal
  months_to_breakeven : FloatVal
deriving DecidableEq, Repr, Inhabited

/-- Return value of `calculate_sensitivity_analysis`. -/
structure SensitivityResult where
  base : BreakevenResult
  collection_rate_drop : BreakevenResult
  wash_cost_increase : BreakevenResult
  per_use_fee_increase : BreakevenResult
  orders_per_day_drop : BreakevenResult
deriving DecidableEq, Repr

/-- Return value of `generate_breakeven_chart_data`. -/
structure ChartData where
  orders_range : List ℤ
  revenue_line : List ℚ
  cost_line : List ℚ
  breakeven_point : FloatVal
deriving DecidableEq, Repr

/-- `calculate_revenue(pricing, volume)`: all revenue streams. -/
def calculate_revenue (pricing : Pricing) (volume : Volume) : RevenueBreakdown :=
  let total_orders := volume.restaurants * volume.orders_per_day * volume.operating_days
  let usage_revenue := total_orders * pricing.per_use_fee
  let subscription_revenue := volume.restaurants * pricing.monthly_fee * (volume.operating_days / 30)
  let setup_revenue := volume.new_restaurants * pricing.setup_fee
  let shrinkage_revenue := total_orders * pricing.deposit * volume.shrinkage
  let aggregator_revenue := volume.zomato_orders_per_day * volume.zomato_operating_days *
    pricing.green_fee * pricing.revenue_share_pct
  let total_revenue := usage_revenue + subscription_revenue + setup_revenue +
    shrinkage_revenue + aggregator_revenue
  { total_orders, usage_revenue, subscription_revenue, setup_revenue,
    shrinkage_revenue, aggregator_revenue, total_revenue }

/-- The body of `calculate_cogs(cogs, volume, total_orders)` after the division
`container_cost / container_lifespan` has succeeded (total function; the
wrapper `calculate_cogs` routes `container_lifespan = 0` to the error case). -/
def cogsCore (cogs : Cogs) (volume : Volume) (total_orders : ℚ) : CogsBreakdown :=
  let amortization_per_order := cogs.container_cost / cogs.container_lifespan
  let amortization := total_orders * amortization_per_order
  let washing := total_orders * volume.collection_rate * cogs.wash_cost
  let collection := total_orders * cogs.collection_cost
  let qc := cogs.qc_batch_cost * cogs.batches_per_month * (volume.operating_days / 30)
  let total_cogs := amortization + washing + collection + qc
  { amortization, washing, collection, qc, total_cogs, amortization_per_order }

/-- `calculate_cogs(cogs, volume, total_orders)`: raises `ZeroDivisionError`
exactly when `container_lifespan = 0` (Python evaluates
`container_cost / container_lifespan` first), otherwise returns the breakdown. -/
def calculate_cogs (cogs : Cogs) (volume : Volume) (total_orders : ℚ) :
    Except PyError CogsBreakdown :=
  if cogs.container_lifespan = 0 then .error .divisionByZero
  else .ok (cogsCore cogs volume total_orders)

/-- `calculate_opex(opex, volume)`: operating expenses. -/
def calculate_opex (opex : Opex) (volume : Volume) : OpexBreakdown :=
  let sales_salaries := opex.num_sales_people * opex.avg_salary
  let months_operating := volume.operating_days / 30
  let facility_rent := opex.num_hubs * opex.rent_per_hub * months_operating
  let facility_utilities := opex.num_hubs * opex.utilities_per_hub * months_operating
  let facility_labor := opex.num_hubs * opex.workers_per_hub * opex.worker_salary * months_operating
  let facility_costs := facility_rent + facility_utilities + facility_labor
  let total_opex := opex.technology + opex.marketing + sales_salaries + opex.ga + facility_costs
  { technology := opex.technology, marketing := opex.marketing, sales_salaries,
    ga := opex.ga, facility_costs, total_opex }

/-- `calculate_other_items(volume, restaurants)`: tiered depreciation and
interest (the callers pass `volume['restaurants']` as the second argument). -/
def calculate_other_items (volume : Volume) (restaurants : ℚ) : OtherItems :=
  let depreciation : ℚ :=
    if volume.operating_days < 365 then -2500000
    else if restaurants < 2000 then -6000000
    else -14500000
  let interest : ℚ :=
    if volume.operating_days < 365 then 250000
    else if restaurants < 2000 then 500000
    else 1500000
  { depreciation, interest }

/-- The body of `calculate_full_income_statement` after the COGS division has
succeeded (total function; the wrapper routes `container_lifespan = 0` to the
error case). -/
def fullCore (pricing : Pricing) (volume : Volume) (cogs : Cogs) (opex : Opex) :
    IncomeStatement :=
  let revenue := calculate_revenue pricing volume
  let cogs_calc := cogsCore cogs volume revenue.total_orders
  let gross_profit := revenue.total_revenue - cogs_calc.total_cogs
  let gross_margin := if 0 < revenue.total_revenue then gross_profit / revenue.total_revenue * 100 else 0
  let opex_calc := calculate_opex opex volume
  let ebitda := gross_profit - opex_calc.total_opex
  let ebitda_margin := if 0 < revenue.total_revenue then ebitda / revenue.total_revenue * 100 else 0
  let other := calculate_other_items volume volume.restaurants
  let net_income := ebitda + other.depreciation + other.interest
  let net_margin := if 0 < revenue.total_revenue then net_income / revenue.total_revenue * 100 else 0
  { revenue, cogs := cogs_calc, gross_profit, gross_margin, opex := opex_calc,
    ebitda, ebitda_margin, other, net_income, net_margin }

/-- `calculate_full_income_statement(pricing, volume, cogs, opex)`: the
`ZeroDivisionError` raised inside `calculate_cogs` when
`container_lifespan = 0` propagates unhandled to the caller. -/
def calculate_full_income_statement (pricing : Pricing) (volume : Volume)
    (cogs : Cogs) (opex : Opex) : Except PyError IncomeStatement :=
  if cogs.container_lifespan = 0 then .error .divisionByZero
  else .ok (fullCore pricing volume cogs opex)

/-- `calculate_unit_economics(income_statement)`: per-order metrics with an
explicit 0-fallback when `total_orders = 0` (never raises). -/
def calculate_unit_economics (income_statement : IncomeStatement) : UnitEconomics :=
  let total_orders := income_statement.revenue.total_orders
  let total_revenue := income_statement.revenue.total_revenue
  let total_cogs := income_statement.cogs.total_cogs
  let total_opex := income_statement.opex.total_opex
  let revenue_per_order := if 0 < total_orders then total_revenue / total_orders else 0
  let cogs_per_order := if 0 < total_orders then total_cogs / total_orders else 0
  let gross_profit_per_order := revenue_per_order - cogs_per_order
  let opex_per_order := if 0 < total_orders then total_opex / total_orders else 0
  { revenue_per_order, cogs_per_order, gross_profit_per_order, opex_per_order }

/-- The body of `calculate_breakeven(pricing, volume, cogs, opex)` after the
division `container_cost / container_lifespan` has succeeded (total function;
the wrapper routes `container_lifespan = 0` to the error case).  Every other
division of the Python body sits behind a `> 0` guard on its denominator, and
`float('inf')` only flows into further arithmetic as `inf / positive` and
`inf * 12`, which `FloatVal.divQ` / `FloatVal.mulQ` model. -/
def breakevenCore (pricing : Pricing) (volume : Volume) (cogs : Cogs) (opex : Opex) :
    BreakevenResult :=
  let opex_calc := calculate_opex opex volume
  let other := calculate_other_items volume volume.restaurants
  let fixed_costs_annual := opex_calc.total_opex + |other.depreciation|
  let amortization_per_order := cogs.container_cost / cogs.container_lifespan
  let wash_cost_per_order := cogs.wash_cost * volume.collection_rate
  let collection_cost_per_order := cogs.collection_cost
  let variable_cost_per_order := amortization_per_order + wash_cost_per_order +
    collection_cost_per_order
  let revenue_base := pricing.per_use_fee
  let revenue_with_fees :=
    if 0 < volume.orders_per_day ∧ 0 < volume.operating_days then
      let total_orders_estimate := volume.restaurants * volume.orders_per_day * volume.operating_days
      if 0 < total_orders_estimate then
        let monthly_fee_per_order := volume.restaurants * pricing.monthly_fee *
          (volume.operating_days / 30) / total_orders_estimate
        let setup_fee_per_order := volume.new_restaurants * pricing.setup_fee / total_orders_estimate
        let deposit_per_order := pricing.deposit * volume.shrinkage
        revenue_base + monthly_fee_per_order + setup_fee_per_order + deposit_per_order
      else revenue_base
    else revenue_base
  let revenue_per_order :=
    if 0 < volume.zomato_orders_per_day ∧ 0 < volume.zomato_operating_days then
      let total_orders_with_aggregator := volume.restaurants * volume.orders_per_day *
        volume.operating_days + volume.zomato_orders_per_day * volume.zomato_operating_days
      let aggregator_revenue_total := volume.zomato_orders_per_day * volume.zomato_operating_days *
        pricing.green_fee * pricing.revenue_share_pct
      if 0 < total_orders_with_aggregator then
        revenue_with_fees + aggregator_revenue_total / total_orders_with_aggregator
      else revenue_with_fees
    else revenue_with_fees
  let contribution_margin_per_order := revenue_per_order - variable_cost_per_order
  let breakeven_orders : FloatVal :=
    if 0 < contribution_margin_per_order then
      .fin (fixed_costs_annual / contribution_margin_per_order)
    else .inf
  let breakeven_restaurants : FloatVal :=
    if 0 < volume.orders_per_day ∧ 0 < volume.operating_days then
      let orders_per_restaurant_annual := volume.orders_per_day * volume.operating_days
      if 0 < orders_per_restaurant_annual then breakeven_orders.divQ orders_per_restaurant_annual
      else .inf
    else .inf
  let months_to_breakeven : FloatVal :=
    if 0 < volume.orders_per_day ∧ 0 < volume.restaurants then
      let year1_total_orders := volume.restaurants * volume.orders_per_day * volume.operating_days
      if 0 < year1_total_orders ∧ 0 < contribution_margin_per_order then
        (breakeven_orders.divQ year1_total_orders).mulQ 12
      else .inf
    else .inf
  { fixed_costs_annual, variable_cost_per_order, revenue_per_order,
    contribution_margin_per_order, breakeven_orders, breakeven_restaurants,
    months_to_breakeven }

/-- `calculate_breakeven(pricing, volume, cogs, opex)`: raises
`ZeroDivisionError` exactly when `container_lifespan = 0` (the unguarded
`amortization_per_order` division), otherwise returns the result. -/
def calculate_breakeven (pricing : Pricing) (volume : Volume) (cogs : Cogs) (opex : Opex) :
    Except PyError BreakevenResult :=
  if cogs.container_lifespan = 0 then .error .divisionByZero
  else .ok (breakevenCore pricing volume cogs opex)

/-- Scenario 1 of `calculate_sensitivity_analysis`: a copy of the volume bundle
with `collection_rate = max(0.5, collection_rate - 0.10)`, all other fields at
base. -/
def volume_s1 (volume : Volume) : Volume :=
  { volume with collection_rate := max 0.5 (volume.collection_rate - 0.10) }

/-- Scenario 2: a copy of the cogs bundle with `wash_cost` multiplied by
`1.20`, all other fields at base. -/
def cogs_s2 (cogs : Cogs) : Cogs :=
  { cogs with wash_cost := cogs.wash_cost * 1.20 }

/-- Scenario 3: a copy of the pricing bundle with `per_use_fee` raised by
`0.50`, all other fields at base. -/
def pricing_s3 (pricing : Pricing) : Pricing :=
  { pricing with per_use_fee := pricing.per_use_fee + 0.50 }

/-- Scenario 4: a copy of the volume bundle with `orders_per_day` forced to
`40`, all other fields at base. -/
def volume_s4 (volume : Volume) : Volume :=
  { volume with orders_per_day := 40 }

/-- `calculate_sensitivity_analysis(pricing, volume, cogs, opex)`: five
break-even runs over the base bundle and its four one-field perturbations.
None of the perturbations touches `container_lifespan`, so all five runs raise
together (exactly when `container_lifespan = 0`). -/
def calculate_sensitivity_analysis (pricing : Pricing) (volume : Volume)
    (cogs : Cogs) (opex : Opex) : Except PyError SensitivityResult :=
  if cogs.container_lifespan = 0 then .error .divisionByZero
  else .ok
    { base := breakevenCore pricing volume cogs opex
      collection_rate_drop := breakevenCore pricing (volume_s1 volume) cogs opex
      wash_cost_increase := breakevenCore pricing volume (cogs_s2 cogs) opex
      per_use_fee_increase := breakevenCore (pricing_s3 pricing) volume cogs opex
      orders_per_day_drop := breakevenCore pricing (volume_s4 volume) cogs opex }

/-- Python `int(q)` on a float: truncation toward zero. -/
def pyTrunc (q : ℚ) : ℤ := if q < 0 then ⌈q⌉ else ⌊q⌋

/-- The chart step size: `int(year3_orders * 1.5) // 20` (Python `//` on
integers is floor division). -/
def chartStepSize (year3_orders : ℚ) : ℤ :=
  let max_orders := pyTrunc (year3_orders * 1.5)
  Int.fdiv max_orders 20

/-- The body of `generate_breakeven_chart_data` after the break-even run has
succeeded (total function; the wrapper routes `container_lifespan = 0` to the
error case). -/
def chartCore (pricing : Pricing) (volume : Volume) (cogs : Cogs) (opex : Opex)
    (year3_orders : ℚ) : ChartData :=
  let breakeven := breakevenCore pricing volume cogs opex
  let step_size := chartStepSize year3_orders
  let orders_range := (List.range 21).map (fun i => (i : ℤ) * step_size)
  let opex_calc := calculate_opex opex volume
  let other := calculate_other_items volume volume.restaurants
  let fixed_costs := opex_calc.total_opex + |other.depreciation|
  let revenue_line := orders_range.map (fun orders => (orders : ℚ) * breakeven.revenue_per_order)
  let cost_line := orders_range.map
    (fun orders => fixed_costs + (orders : ℚ) * breakeven.variable_cost_per_order)
  { orders_range, revenue_line, cost_line, breakeven_point := breakeven.breakeven_orders }

/-- `generate_breakeven_chart_data(pricing, volume, cogs, opex, year3_orders)`:
the `ZeroDivisionError` from the inner `calculate_breakeven` call propagates
when `container_lifespan = 0`. -/
def generate_breakeven_chart_data (pricing : Pricing) (volume : Volume)
    (cogs : Cogs) (opex : Opex) (year3_orders : ℚ) : Except PyError ChartData :=
  if cogs.container_lifespan = 0 then .error .divisionByZero
  else .ok (chartCore pricing volume cogs opex year3_orders)

/-- The finite value carried by a `FloatVal` (`0` for `inf`); used to name the
finite break-even order count of a concrete run. -/
def FloatVal.val : FloatVal → ℚ
  | .fin q => q
  | .inf => 0

/-- All ten opex assumption fields are non-negative. -/
def opexNonneg (o : Opex) : Prop :=
  0 ≤ o.technology ∧ 0 ≤ o.marketing ∧ 0 ≤ o.ga ∧ 0 ≤ o.num_sales_people ∧
  0 ≤ o.avg_salary ∧ 0 ≤ o.num_hubs ∧ 0 ≤ o.rent_per_hub ∧
  0 ≤ o.utilities_per_hub ∧ 0 ≤ o.workers_per_hub ∧ 0 ≤ o.worker_salary

/-! Concrete assumption bundles used to instantiate the theorems (values in the
range of the dashboard's defaults). -/

/-- A representative pricing bundle. -/
def pW : Pricing :=
  { container_price := 100, monthly_fee := 1000, setup_fee := 5000, per_use_fee := 2,
    deposit := 20, incentive := 0, green_fee := 3, revenue_share_pct := 1/2 }

/-- `pW` with a per-use fee high enough for a positive contribution margin. -/
def p10 : Pricing := { pW with per_use_fee := 10 }

/-- A representative volume bundle (300 operating days, 500 restaurants). -/
def vW : Volume :=
  { restaurants := 500, new_restaurants := 100, orders_per_day := 50, operating_days := 300,
    collection_rate := 9/10, shrinkage := 1/20, zomato_orders_per_day := 0,
    zomato_operating_days := 0 }

/-- `vW` at the 365-operating-days tier boundary. -/
def v365 : Volume := { vW with operating_days := 365 }

/-- A representative cogs bundle (lifespan 150). -/
def cW : Cogs :=
  { container_cost := 100, container_lifespan := 150, wash_cost := 3, collection_cost := 2,
    qc_batch_cost := 500, batches_per_month := 4 }

/-- `cW` with a zero container lifespan (the division-by-zero input). -/
def cZero : Cogs := { cW with container_lifespan := 0 }

/-- A representative opex bundle. -/
def oW : Opex :=
  { technology := 100000, marketing := 50000, ga := 20000, num_sales_people := 2,
    avg_salary := 30000, num_hubs := 1, rent_per_hub := 10000, utilities_per_hub := 2000,
    workers_per_hub := 3, worker_salary := 8000 }

/-- An all-zero pricing bundle (gives zero revenue per order). -/
def pZ : Pricing :=
  { container_price := 0, monthly_fee := 0, setup_fee := 0, per_use_fee := 0,
    deposit := 0, incentive := 0, green_fee := 0, revenue_share_pct := 0 }

/-- `pZ` with per-use fee 10 (contribution margin 8 against `cZ`). -/
def p8a : Pricing := { pZ with per_use_fee := 10 }

/-- `pZ` with per-use fee 20 (contribution margin 18 against `cZ`). -/
def p8b : Pricing := { pZ with per_use_fee := 20 }

/-- An all-zero volume bundle. -/
def vZ : Volume :=
  { restaurants := 0, new_restaurants := 0, orders_per_day := 0, operating_days := 0,
    collection_rate := 0, shrinkage := 0, zomato_orders_per_day := 0,
    zomato_operating_days := 0 }

/-- A cogs bundle whose only cost is a collection cost of 2 per order. -/
def cZ : Cogs :=
  { container_cost := 0, container_lifespan := 1, wash_cost := 0, collection_cost := 2,
    qc_batch_cost := 0, batches_per_month := 0 }

/-- `cZ` with collection cost 1 per order. -/
def cZ1 : Cogs := { cZ with collection_cost := 1 }

/-- An all-zero opex bundle. -/
def oZ : Opex :=
  { technology := 0, marketing := 0, ga := 0, num_sales_people := 0, avg_salary := 0,
    num_hubs := 0, rent_per_hub := 0, utilities_per_hub := 0, workers_per_hub := 0,
    worker_salary := 0 }

/-- The additive invariants of a composed income statement (claim C1's
property, as a predicate on the returned record). -/
def AdditiveInvariants (s : IncomeStatement) : Prop :=
  s.revenue.total_revenue = s.revenue.usage_revenue + s.revenue.subscription_revenue +
    s.revenue.setup_revenue + s.revenue.shrinkage_revenue + s.revenue.aggregator_revenue ∧
  s.cogs.total_cogs = s.cogs.amortization + s.cogs.washing + s.cogs.collection + s.cogs.qc ∧
  s.opex.total_opex = s.opex.technology + s.opex.marketing + s.opex.sales_salaries +
    s.opex.ga + s.opex.facility_costs ∧
  s.gross_profit = s.revenue.total_revenue - s.cogs.total_cogs ∧
  s.ebitda = s.gross_profit - s.opex.total_opex ∧
  s.net_income = s.ebitda + s.other.depreciation + s.other.interest

/-! Helper lemmas shared by the claim theorems. -/

theorem calculate_full_income_statement_ok {p : Pricing} {v : Volume} {c : Cogs}
    {o : Opex} {s : IncomeStatement}
    (h : calculate_full_income_statement p v c o = .ok s) :
    c.container_lifespan ≠ 0 ∧ s = fullCore p v c o := by
  unfold calculate_full_income_statement at h
  split at h
  · simp at h
  · simp only [Except.ok.injEq] at h
    exact ⟨by assumption, h.symm⟩

theorem calculate_full_income_statement_ok_of_ne {p : Pricing} {v : Volume} {c : Cogs}
    {o : Opex} (h : c.container_lifespan ≠ 0) :
    calculate_full_income_statement p v c o = .ok (fullCore p v c o) := by
  rw [calculate_full_income_statement, if_neg h]

theorem calculate_breakeven_ok {p : Pricing} {v : Volume} {c : Cogs} {o : Opex}
    {r : BreakevenResult} (h : calculate_breakeven p v c o = .ok r) :
    c.container_lifespan ≠ 0 ∧ r = breakevenCore p v c o := by
  unfold calculate_breakeven at h
  split at h
  · simp at h
  · simp only [Except.ok.injEq] at h
    exact ⟨by assumption, h.symm⟩

theorem calculate_breakeven_ok_of_ne {p : Pricing} {v : Volume} {c : Cogs} {o : Opex}
    (h : c.container_lifespan ≠ 0) :
    calculate_breakeven p v c o = .ok (breakevenCore p v c o) := by
  rw [calculate_breakeven, if_neg h]

theorem fullCore_revenue (p : Pricing) (v : Volume) (c : Cogs) (o : Opex) :
    (fullCore p v c o).revenue = calculate_revenue p v := rfl

theorem fullCore_total_revenue (p : Pricing) (v : Volume) (c : Cogs) (o : Opex) :
    (fullCore p v c o).revenue.total_revenue = (calculate_revenue p v).total_revenue := rfl

theorem fullCore_gross_margin (p : Pricing) (v : Volume) (c : Cogs) (o : Opex) :
    (fullCore p v c o).gross_margin =
      if 0 < (calculate_revenue p v).total_revenue then
        (fullCore p v c o).gross_profit / (calculate_revenue p v).total_revenue * 100
      else 0 := rfl

theorem fullCore_ebitda_margin (p : Pricing) (v : Volume) (c : Cogs) (o : Opex) :
    (fullCore p v c o).ebitda_margin =
      if 0 < (calculate_revenue p v).total_revenue then
        (fullCore p v c o).ebitda / (calculate_revenue p v).total_revenue * 100
      else 0 := rfl

theorem fullCore_net_margin (p : Pricing) (v : Volume) (c : Cogs) (o : Opex) :
    (fullCore p v c o).net_margin =
      if 0 < (calculate_revenue p v).total_revenue then
        (fullCore p v c o).net_income / (calculate_revenue p v).total_revenue * 100
      else 0 := rfl

theorem breakevenCore_fixed_costs (p : Pricing) (v : Volume) (c : Cogs) (o : Opex) :
    (breakevenCore p v c o).fixed_costs_annual =
      (calculate_opex o v).total_opex +
        |(calculate_other_items v v.restaurants).depreciation| := rfl

theorem breakevenCore_breakeven_orders (p : Pricing) (v : Volume) (c : Cogs) (o : Opex) :
    (breakevenCore p v c o).breakeven_orders =
      if 0 < (breakevenCore p v c o).contribution_margin_per_order then
        .fin ((breakevenCore p v c o).fixed_costs_annual /
          (breakevenCore p v c o).contribution_margin_per_order)
      else .inf := rfl

theorem breakevenCore_breakeven_restaurants (p : Pricing) (v : Volume) (c : Cogs) (o : Opex) :
    (breakevenCore p v c o).breakeven_restaurants =
      if 0 < v.orders_per_day ∧ 0 < v.operating_days then
        if 0 < v.orders_per_day * v.operating_days then
          (breakevenCore p v c o).breakeven_orders.divQ (v.orders_per_day * v.operating_days)
        else .inf
      else .inf := rfl

theorem breakevenCore_months_to_breakeven (p : Pricing) (v : Volume) (c : Cogs) (o : Opex) :
    (breakevenCore p v c o).months_to_breakeven =
      if 0 < v.orders_per_day ∧ 0 < v.restaurants then
        if 0 < v.restaurants * v.orders_per_day * v.operating_days ∧
            0 < (breakevenCore p v c o).contribution_margin_per_order then
          ((breakevenCore p v c o).breakeven_orders.divQ
            (v.restaurants * v.orders_per_day * v.operating_days)).mulQ 12
        else .inf
      else .inf := rfl

theorem FloatVal.fin_lt_fin {a b : ℚ} : FloatVal.fin a < FloatVal.fin b ↔ a < b := by
  show FloatVal.blt _ _ = true ↔ _
  simp [FloatVal.blt]

/-! The claim theorems. -/

/-- C1: every income statement returned by `calculate_full_income_statement`
satisfies the additive invariants: `total_revenue` is the sum of the five
revenue streams, `total_cogs` the sum of its four components, `total_opex` the
sum of its five components, `gross_profit = total_revenue - total_cogs`,
`ebitda = gross_profit - total_opex`, and
`net_income = ebitda + depreciation + interest` (depreciation being the
negative tier value). -/
theorem income_statement_additive_invariants (p : Pricing) (v : Volume) (c : Cogs)
    (o : Opex) (s : IncomeStatement)
    (h : calculate_full_income_statement p v c o = .ok s) :
    AdditiveInvariants s := by
  obtain ⟨-, rfl⟩ := calculate_full_income_statement_ok h
  exact ⟨rfl, rfl, rfl, rfl, rfl, rfl⟩

/-- C1 witness: the invariants hold at the concrete bundle `pW vW cW oW`. -/
theorem income_statement_additive_invariants_witness :
    AdditiveInvariants (fullCore pW vW cW oW) :=
  income_statement_additive_invariants pW vW cW oW (fullCore pW vW cW oW)
    (calculate_full_income_statement_ok_of_ne (by decide))

/-- C2: whenever `calculate_breakeven` returns a result with
`contribution_margin_per_order ≤ 0`, all three break-even metrics are the
`+inf` sentinel value (returned, not raised); and whenever the margin is
positive, `breakeven_orders` is the finite value
`fixed_costs_annual / contribution_margin_per_order`. -/
theorem breakeven_inf_sentinel (p : Pricing) (v : Volume) (c : Cogs) (o : Opex)
    (r : BreakevenResult) (h : calculate_breakeven p v c o = .ok r) :
    (r.contribution_margin_per_order ≤ 0 →
      r.breakeven_orders = .inf ∧ r.breakeven_restaurants = .inf ∧
      r.months_to_breakeven = .inf) ∧
    (0 < r.contribution_margin_per_order →
      r.breakeven_orders = .fin (r.fixed_costs_annual / r.contribution_margin_per_order)) := by
  obtain ⟨-, rfl⟩ := calculate_breakeven_ok h
  constructor
  · intro hcm
    have hbo : (breakevenCore p v c o).breakeven_orders = .inf := by
      rw [breakevenCore_breakeven_orders, if_neg (not_lt.2 hcm)]
    refine ⟨hbo, ?_, ?_⟩
    · rw [breakevenCore_breakeven_restaurants, hbo]
      split
      · split
        · rfl
        · rfl
      · rfl
    · rw [breakevenCore_months_to_breakeven]
      split
      · rw [if_neg]
        intro hand
        exact absurd hand.2 (not_lt.2 hcm)
      · rfl
  · intro hcm
    rw [breakevenCore_breakeven_orders, if_pos hcm]

/-- C2 witness: at the concrete all-zero bundle (margin `-2 ≤ 0`) all three
metrics are `inf`. -/
theorem breakeven_inf_sentinel_witness :
    (breakevenCore pZ vZ cZ oZ).breakeven_orders = .inf ∧
    (breakevenCore pZ vZ cZ oZ).breakeven_restaurants = .inf ∧
    (breakevenCore pZ vZ cZ oZ).months_to_breakeven = .inf :=
  (breakeven_inf_sentinel pZ vZ cZ oZ (breakevenCore pZ vZ cZ oZ)
    (calculate_breakeven_ok_of_ne (by decide))).1
    (by norm_num [breakevenCore, calculate_opex, calculate_other_items, pZ, vZ, cZ, oZ])

/-- C3: `calculate_cogs` and `calculate_breakeven` raise `ZeroDivisionError`
exactly when `container_lifespan = 0` (the unguarded
`container_cost / container_lifespan` division); and for every bundle whose
`container_lifespan` is positive, none of the engine functions raises. -/
theorem division_error_iff_lifespan_zero :
    (∀ (c : Cogs) (v : Volume) (t : ℚ),
      calculate_cogs c v t = .error .divisionByZero ↔ c.container_lifespan = 0) ∧
    (∀ (p : Pricing) (v : Volume) (c : Cogs) (o : Opex),
      calculate_breakeven p v c o = .error .divisionByZero ↔ c.container_lifespan = 0) ∧
    (∀ (p : Pricing) (v : Volume) (c : Cogs) (o : Opex) (t y : ℚ),
      0 < c.container_lifespan →
      calculate_cogs c v t = .ok (cogsCore c v t) ∧
      calculate_full_income_statement p v c o = .ok (fullCore p v c o) ∧
      calculate_breakeven p v c o = .ok (breakevenCore p v c o) ∧
      (calculate_sensitivity_analysis p v c o).isOk = true ∧
      (generate_breakeven_chart_data p v c o y).isOk = true) := by
  refine ⟨fun c v t => ?_, fun p v c o => ?_, fun p v c o t y hpos => ?_⟩
  · unfold calculate_cogs
    split
    · simp_all
    · simp_all
  · unfold calculate_breakeven
    split
    · simp_all
    · simp_all
  · have hne : c.container_lifespan ≠ 0 := ne_of_gt hpos
    refine ⟨?_, calculate_full_income_statement_ok_of_ne hne,
      calculate_breakeven_ok_of_ne hne, ?_, ?_⟩
    · rw [calculate_cogs, if_neg hne]
    · rw [calculate_sensitivity_analysis, if_neg hne]
      rfl
    · rw [generate_breakeven_chart_data, if_neg hne]
      rfl

/-- C3 witness: at `container_lifespan = 0` the COGS calculator raises, and at
the concrete positive-lifespan bundle every engine function returns normally. -/
theorem division_error_iff_lifespan_zero_witness :
    calculate_cogs cZero vW 0 = .error .divisionByZero ∧
    (calculate_cogs cW vW 7500000 = .ok (cogsCore cW vW 7500000) ∧
      calculate_full_income_statement pW vW cW oW = .ok (fullCore pW vW cW oW) ∧
      calculate_breakeven pW vW cW oW = .ok (breakevenCore pW vW cW oW) ∧
      (calculate_sensitivity_analysis pW vW cW oW).isOk = true ∧
      (generate_breakeven_chart_data pW vW cW oW 1000).isOk = true) :=
  ⟨(division_error_iff_lifespan_zero.1 cZero vW 0).2 rfl,
    division_error_iff_lifespan_zero.2.2 pW vW cW oW 7500000 1000 (by decide)⟩

/-- C4: when `total_revenue = 0` every margin of the returned income statement
is `0`, and when `total_orders = 0` every per-order metric returned by
`calculate_unit_economics` is `0`; both divisions use the explicit 0-fallback
and neither function raises (the unit-economics function is total). -/
theorem zero_denominator_fallbacks :
    (∀ (p : Pricing) (v : Volume) (c : Cogs) (o : Opex) (s : IncomeStatement),
      calculate_full_income_statement p v c o = .ok s →
      s.revenue.total_revenue = 0 →
      s.gross_margin = 0 ∧ s.ebitda_margin = 0 ∧ s.net_margin = 0) ∧
    (∀ s : IncomeStatement, s.revenue.total_orders = 0 →
      calculate_unit_economics s =
        { revenue_per_order := 0, cogs_per_order := 0, gross_profit_per_order := 0,
          opex_per_order := 0 }) := by
  constructor
  · intro p v c o s h h0
    obtain ⟨-, rfl⟩ := calculate_full_income_statement_ok h
    rw [fullCore_total_revenue] at h0
    refine ⟨?_, ?_, ?_⟩
    · rw [fullCore_gross_margin, h0]
      norm_num
    · rw [fullCore_ebitda_margin, h0]
      norm_num
    · rw [fullCore_net_margin, h0]
      norm_num
  · intro s h0
    simp [calculate_unit_economics, h0]

/-- C4 witness: at the all-zero bundle (`total_revenue = 0`,
`total_orders = 0`) the margins and the per-order metrics are all `0`. -/
theorem zero_denominator_fallbacks_witness :
    ((fullCore pZ vZ cZ oZ).gross_margin = 0 ∧ (fullCore pZ vZ cZ oZ).ebitda_margin = 0 ∧
      (fullCore pZ vZ cZ oZ).net_margin = 0) ∧
    calculate_unit_economics (fullCore pZ vZ cZ oZ) =
      { revenue_per_order := 0, cogs_per_order := 0, gross_profit_per_order := 0,
        opex_per_order := 0 } :=
  ⟨zero_denominator_fallbacks.1 pZ vZ cZ oZ (fullCore pZ vZ cZ oZ)
      (calculate_full_income_statement_ok_of_ne (by decide))
      (by norm_num [fullCore_revenue, calculate_revenue, pZ, vZ]),
    zero_denominator_fallbacks.2 (fullCore pZ vZ cZ oZ)
      (by norm_num [fullCore_revenue, calculate_revenue, pZ, vZ])⟩

/-- C5: `calculate_other_items` is the tiered step function evaluated in
priority order (`operating_days < 365`, then `restaurants < 2000`, then the
full-scale tier); in particular at `operating_days = 365` the 1999/2000
restaurant boundary separates the `-6,000,000` and `-14,500,000` tiers. -/
theorem other_items_tiers :
    (∀ (v : Volume) (r : ℚ),
      (v.operating_days < 365 →
        calculate_other_items v r = { depreciation := -2500000, interest := 250000 }) ∧
      (¬ v.operating_days < 365 → r < 2000 →
        calculate_other_items v r = { depreciation := -6000000, interest := 500000 }) ∧
      (¬ v.operating_days < 365 → ¬ r < 2000 →
        calculate_other_items v r = { depreciation := -14500000, interest := 1500000 })) ∧
    (∀ v : Volume, v.operating_days = 365 →
      (calculate_other_items v 1999).depreciation = -6000000 ∧
      (calculate_other_items v 2000).depreciation = -14500000) := by
  constructor
  · intro v r
    refine ⟨fun h1 => ?_, fun h1 h2 => ?_, fun h1 h2 => ?_⟩
    · simp [calculate_other_items, h1]
    · simp [calculate_other_items, h1, h2]
    · simp [calculate_other_items, h1, h2]
  · intro v h
    constructor <;> norm_num [calculate_other_items, h]

/-- C5 witness: the startup tier at the concrete volume bundle (300 operating
days) and the concrete 1999/2000 boundary at 365 operating days. -/
theorem other_items_tiers_witness :
    calculate_other_items vW 500 = { depreciation := -2500000, interest := 250000 } ∧
    (calculate_other_items v365 1999).depreciation = -6000000 ∧
    (calculate_other_items v365 2000).depreciation = -14500000 :=
  ⟨(other_items_tiers.1 vW 500).1 (by decide), other_items_tiers.2 v365 (by decide)⟩

/-- C6: `calculate_sensitivity_analysis` returns exactly five break-even
records, each equal to an independent `calculate_breakeven` call on a bundle
derived from the unmodified base by one deterministic perturbation: `base` is
the unperturbed bundle, `collection_rate_drop` sets
`collection_rate = max(0.5, collection_rate - 0.10)`, `wash_cost_increase`
multiplies `wash_cost` by `1.20`, `per_use_fee_increase` adds `0.50` to
`per_use_fee`, and `orders_per_day_drop` sets `orders_per_day` to `40`; every
other field is held at base. -/
theorem sensitivity_five_scenarios (p : Pricing) (v : Volume) (c : Cogs) (o : Opex) :
    ((calculate_sensitivity_analysis p v c o).map SensitivityResult.base =
      calculate_breakeven p v c o) ∧
    ((calculate_sensitivity_analysis p v c o).map SensitivityResult.collection_rate_drop =
      calculate_breakeven p (volume_s1 v) c o) ∧
    ((calculate_sensitivity_analysis p v c o).map SensitivityResult.wash_cost_increase =
      calculate_breakeven p v (cogs_s2 c) o) ∧
    ((calculate_sensitivity_analysis p v c o).map SensitivityResult.per_use_fee_increase =
      calculate_breakeven (pricing_s3 p) v c o) ∧
    ((calculate_sensitivity_analysis p v c o).map SensitivityResult.orders_per_day_drop =
      calculate_breakeven p (volume_s4 v) c o) ∧
    volume_s1 v = { v with collection_rate := max 0.5 (v.collection_rate - 0.10) } ∧
    cogs_s2 c = { c with wash_cost := c.wash_cost * 1.20 } ∧
    pricing_s3 p = { p with per_use_fee := p.per_use_fee + 0.50 } ∧
    volume_s4 v = { v with orders_per_day := 40 } := by
  refine ⟨?_, ?_, ?_, ?_, ?_, rfl, rfl, rfl, rfl⟩ <;>
    (unfold calculate_sensitivity_analysis calculate_breakeven
     by_cases hc : c.container_lifespan = 0 <;> simp [hc, cogs_s2, Except.map])

/-- C9: the perturbed bundle built for the `collection_rate_drop` scenario
never has a collection rate below `0.5`, regardless of the base value. -/
theorem collection_rate_floor (v : Volume) :
    (0.5 : ℚ) ≤ (volume_s1 v).collection_rate :=
  le_max_left _ _

/-- C10: every break-even result has
`fixed_costs_annual = total_opex + |depreciation|`, hence
`fixed_costs_annual ≥ total_opex + 2,500,000` (the smallest tier magnitude);
under non-negative opex inputs the fixed costs are therefore strictly
positive, so a finite `breakeven_orders` value is strictly positive. -/
theorem fixed_costs_floor (p : Pricing) (v : Volume) (c : Cogs) (o : Opex)
    (r : BreakevenResult) (h : calculate_breakeven p v c o = .ok r) :
    (r.fixed_costs_annual = (calculate_opex o v).total_opex +
        |(calculate_other_items v v.restaurants).depreciation| ∧
      (calculate_opex o v).total_opex + 2500000 ≤ r.fixed_costs_annual) ∧
    (opexNonneg o → 0 ≤ v.operating_days →
      ∀ q, r.breakeven_orders = .fin q → 0 < q) := by
  obtain ⟨-, rfl⟩ := calculate_breakeven_ok h
  have hdep : (calculate_other_items v v.restaurants).depreciation = -2500000 ∨
      (calculate_other_items v v.restaurants).depreciation = -6000000 ∨
      (calculate_other_items v v.restaurants).depreciation = -14500000 := by
    by_cases h1 : v.operating_days < 365
    · exact Or.inl (by simp [calculate_other_items, h1])
    · by_cases h2 : v.restaurants < 2000
      · exact Or.inr (Or.inl (by simp [calculate_other_items, h1, h2]))
      · exact Or.inr (Or.inr (by simp [calculate_other_items, h1, h2]))
  have habs : (2500000 : ℚ) ≤ |(calculate_other_items v v.restaurants).depreciation| := by
    rcases hdep with h' | h' | h' <;>
      rw [h', abs_of_nonpos (by norm_num)] <;> norm_num
  refine ⟨⟨breakevenCore_fixed_costs p v c o, ?_⟩, ?_⟩
  · rw [breakevenCore_fixed_costs]
    linarith
  · intro hnn hod q hq
    obtain ⟨ht, hmk, hg, hn, ha, hh, hrent, hu, hw, hws⟩ := hnn
    have hmo : (0 : ℚ) ≤ v.operating_days / 30 := div_nonneg hod (by norm_num)
    have hopex : 0 ≤ (calculate_opex o v).total_opex := by
      have h1 : 0 ≤ o.num_sales_people * o.avg_salary := mul_nonneg hn ha
      have h2 : 0 ≤ o.num_hubs * o.rent_per_hub * (v.operating_days / 30) :=
        mul_nonneg (mul_nonneg hh hrent) hmo
      have h3 : 0 ≤ o.num_hubs * o.utilities_per_hub * (v.operating_days / 30) :=
        mul_nonneg (mul_nonneg hh hu) hmo
      have h4 : 0 ≤ o.num_hubs * o.workers_per_hub * o.worker_salary * (v.operating_days / 30) :=
        mul_nonneg (mul_nonneg (mul_nonneg hh hw) hws) hmo
      show (0 : ℚ) ≤ o.technology + o.marketing + o.num_sales_people * o.avg_salary + o.ga +
        (o.num_hubs * o.rent_per_hub * (v.operating_days / 30) +
          o.num_hubs * o.utilities_per_hub * (v.operating_days / 30) +
          o.num_hubs * o.workers_per_hub * o.worker_salary * (v.operating_days / 30))
      linarith
    have hfix : 0 < (breakevenCore p v c o).fixed_costs_annual := by
      rw [breakevenCore_fixed_costs]
      linarith
    rw [breakevenCore_breakeven_orders] at hq
    by_cases hcm : 0 < (breakevenCore p v c o).contribution_margin_per_order
    · rw [if_pos hcm] at hq
      simp only [FloatVal.fin.injEq] at hq
      exact hq ▸ div_pos hfix hcm
    · rw [if_neg hcm] at hq
      exact absurd hq (by simp)

/-- C10 witness: at the concrete bundle `p10 vW cW oW` the fixed costs satisfy
the decomposition and the finite break-even order count is strictly positive. -/
theorem fixed_costs_floor_witness :
    (breakevenCore p10 vW cW oW).fixed_costs_annual =
      (calculate_opex oW vW).total_opex +
        |(calculate_other_items vW vW.restaurants).depreciation| ∧
    0 < ((breakevenCore p10 vW cW oW).breakeven_orders).val :=
  ⟨(fixed_costs_floor p10 vW cW oW (breakevenCore p10 vW cW oW)
      (calculate_breakeven_ok_of_ne (by decide))).1.1,
    (fixed_costs_floor p10 vW cW oW (breakevenCore p10 vW cW oW)
      (calculate_breakeven_ok_of_ne (by decide))).2
      (by norm_num [opexNonneg, oW]) (by norm_num [vW]) _
      (by norm_num [breakevenCore, calculate_opex, calculate_other_items, FloatVal.val,
        p10, pW, vW, cW, oW])⟩

/-- C8 counterexample: with both contribution margins non-positive
(`-2` against `-1`, by dropping the per-order collection cost from 2 to 1 on an
otherwise identical bundle), both `breakeven_orders` values are the `inf`
sentinel, so the higher margin does not give a strictly smaller
`breakeven_orders` even though the margins are strictly ordered. -/
theorem breakeven_orders_antitone_counterexample :
    calculate_breakeven pZ vZ cZ oZ = .ok (breakevenCore pZ vZ cZ oZ) ∧
    calculate_breakeven pZ vZ cZ1 oZ = .ok (breakevenCore pZ vZ cZ1 oZ) ∧
    (breakevenCore pZ vZ cZ oZ).contribution_margin_per_order <
      (breakevenCore pZ vZ cZ1 oZ).contribution_margin_per_order ∧
    ¬((breakevenCore pZ vZ cZ1 oZ).breakeven_orders <
      (breakevenCore pZ vZ cZ oZ).breakeven_orders) := by
  have e1 : (breakevenCore pZ vZ cZ oZ).breakeven_orders = .inf := by
    norm_num [breakevenCore, calculate_opex, calculate_other_items, pZ, vZ, cZ, oZ]
  have e2 : (breakevenCore pZ vZ cZ1 oZ).breakeven_orders = .inf := by
    norm_num [breakevenCore, calculate_opex, calculate_other_items, pZ, vZ, cZ, cZ1, oZ]
  refine ⟨calculate_breakeven_ok_of_ne (by decide), calculate_breakeven_ok_of_ne (by decide),
    ?_, ?_⟩
  · norm_num [breakevenCore, calculate_opex, calculate_other_items, pZ, vZ, cZ, cZ1, oZ]
  · rw [e1, e2]
    decide

/-- C8 (amended): holding the volume and opex bundles fixed (hence the same
`fixed_costs_annual`), `breakeven_orders` strictly decreases as
`contribution_margin_per_order` increases, provided the smaller margin is
positive (so both break-evens are finite) and the shared fixed costs are
positive; when both margins are non-positive the two results are both the
`inf` sentinel and the strict decrease fails. -/
theorem breakeven_orders_antitone (p1 p2 : Pricing) (v : Volume) (c1 c2 : Cogs)
    (o : Opex) (r1 r2 : BreakevenResult)
    (h1 : calculate_breakeven p1 v c1 o = .ok r1)
    (h2 : calculate_breakeven p2 v c2 o = .ok r2)
    (hcm : r1.contribution_margin_per_order < r2.contribution_margin_per_order)
    (hpos : 0 < r1.contribution_margin_per_order)
    (hfix : 0 < r1.fixed_costs_annual) :
    r2.breakeven_orders < r1.breakeven_orders := by
  obtain ⟨-, rfl⟩ := calculate_breakeven_ok h1
  obtain ⟨-, rfl⟩ := calculate_breakeven_ok h2
  have hfeq : (breakevenCore p2 v c2 o).fixed_costs_annual =
      (breakevenCore p1 v c1 o).fixed_costs_annual := by
    rw [breakevenCore_fixed_costs, breakevenCore_fixed_costs]
  rw [breakevenCore_breakeven_orders p1, breakevenCore_breakeven_orders p2,
    if_pos hpos, if_pos (hpos.trans hcm), FloatVal.fin_lt_fin, hfeq]
  exact div_lt_div_of_pos_left hfix hpos hcm

/-- C8 witness: margins 8 against 18 (per-use fee 10 vs 20 on otherwise
identical bundles) give strictly decreasing finite break-even orders. -/
theorem breakeven_orders_antitone_witness :
    (breakevenCore p8b vZ cZ oZ).breakeven_orders <
      (breakevenCore p8a vZ cZ oZ).breakeven_orders :=
  breakeven_orders_antitone p8a p8b vZ cZ cZ oZ _ _
    (calculate_breakeven_ok_of_ne (by decide))
    (calculate_breakeven_ok_of_ne (by decide))
    (by norm_num [breakevenCore, calculate_opex, calculate_other_items, p8a, p8b, pZ, vZ, cZ, oZ])
    (by norm_num [breakevenCore, calculate_opex, calculate_other_items, p8a, pZ, vZ, cZ, oZ])
    (by norm_num [breakevenCore, calculate_opex, calculate_other_items, p8a, pZ, vZ, cZ, oZ])

theorem generate_breakeven_chart_data_ok {p : Pricing} {v : Volume} {c : Cogs}
    {o : Opex} {y : ℚ} {d : ChartData}
    (h : generate_breakeven_chart_data p v c o y = .ok d) :
    c.container_lifespan ≠ 0 ∧ d = chartCore p v c o y := by
  unfold generate_breakeven_chart_data at h
  split at h
  · simp at h
  · simp only [Except.ok.injEq] at h
    exact ⟨by assumption, h.symm⟩

theorem chartCore_orders_range (p : Pricing) (v : Volume) (c : Cogs) (o : Opex) (y : ℚ) :
    (chartCore p v c o y).orders_range =
      (List.range 21).map (fun i => (i : ℤ) * chartStepSize y) := rfl

/-- C7 counterexample: at reference order count `10` the step size truncates to
`0`, so the last entry of the 21-point range is `0` while `1.5 × 10 = 15`: the
deviation (`15`) exceeds one step-size unit (`0`), refuting the claim for this
reference count. -/
theorem chart_last_entry_counterexample :
    generate_breakeven_chart_data pW vW cW oW 10 = .ok (chartCore pW vW cW oW 10) ∧
    chartStepSize 10 = 0 ∧
    (chartCore pW vW cW oW 10).orders_range.getLast? = some 0 ∧
    ¬(|(1.5 : ℚ) * 10 - ((0 : ℤ) : ℚ)| ≤ ((chartStepSize 10 : ℤ) : ℚ)) := by
  have hs : chartStepSize 10 = 0 := by
    norm_num [chartStepSize, pyTrunc]
    decide
  refine ⟨by rw [generate_breakeven_chart_data, if_neg (by decide)], hs, ?_, ?_⟩
  · rw [chartCore_orders_range, List.getLast?_map, hs]
    decide
  · rw [hs]
    norm_num

/-- C7 (amended): the chart orders range always has exactly 21 entries and
starts at `0`; its last entry is `20 × step_size` where
`step_size = int(1.5 × reference) // 20`, and whenever `step_size ≥ 20`
(equivalently, whenever the reference order count is at least `800/3 ≈ 267`)
the last entry is within one step-size unit of `1.5 × reference`.  For smaller
reference counts the truncation error can exceed the step size (see the
counterexample at reference `10`). -/
theorem chart_orders_range_properties (p : Pricing) (v : Volume) (c : Cogs) (o : Opex)
    (y : ℚ) (d : ChartData)
    (h : generate_breakeven_chart_data p v c o y = .ok d) :
    d.orders_range.length = 21 ∧
    d.orders_range.head? = some 0 ∧
    d.orders_range.getLast? = some (20 * chartStepSize y) ∧
    (0 ≤ y → 20 ≤ chartStepSize y →
      |(1.5 : ℚ) * y - ((20 * chartStepSize y : ℤ) : ℚ)| ≤ ((chartStepSize y : ℤ) : ℚ)) := by
  obtain ⟨-, rfl⟩ := generate_breakeven_chart_data_ok h
  rw [chartCore_orders_range]
  refine ⟨rfl, ?_, ?_, ?_⟩
  · show some ((↑(0 : ℕ) : ℤ) * chartStepSize y) = some 0
    norm_num
  · show some ((↑(20 : ℕ) : ℤ) * chartStepSize y) = some (20 * chartStepSize y)
    norm_num
  · intro hy hs
    have htr : pyTrunc (y * 1.5) = ⌊y * (1.5 : ℚ)⌋ := by
      rw [pyTrunc, if_neg (not_lt.2 (mul_nonneg hy (by norm_num)))]
    have hstep : chartStepSize y = ⌊y * (1.5 : ℚ)⌋ / 20 := by
      rw [show chartStepSize y = (pyTrunc (y * 1.5)).fdiv 20 from rfl, htr,
        Int.fdiv_eq_ediv _ (by norm_num)]
    set m : ℤ := ⌊y * (1.5 : ℚ)⌋ with hm
    rw [hstep] at hs ⊢
    have hfl : (m : ℚ) ≤ y * 1.5 := Int.floor_le _
    have hfu : y * (1.5 : ℚ) < m + 1 := Int.lt_floor_add_one _
    have c1 : (20 : ℚ) * ((m / 20 : ℤ) : ℚ) ≤ (m : ℚ) := by
      have : (20 : ℤ) * (m / 20) ≤ m := by omega
      exact_mod_cast this
    have c2 : (m : ℚ) ≤ 20 * ((m / 20 : ℤ) : ℚ) + 19 := by
      have : m ≤ (20 : ℤ) * (m / 20) + 19 := by omega
      exact_mod_cast this
    have c3 : (20 : ℚ) ≤ ((m / 20 : ℤ) : ℚ) := by exact_mod_cast hs
    rw [abs_le]
    push_cast
    constructor <;> linarith

/-- C7 witness: at reference order count `1,000,000` (step size `75,000`) the
range has 21 entries, starts at `0`, ends at `1,500,000`, and the last entry
matches `1.5 × reference` exactly. -/
theorem chart_orders_range_properties_witness :
    (chartCore pW vW cW oW 1000000).orders_range.length = 21 ∧
    (chartCore pW vW cW oW 1000000).orders_range.head? = some 0 ∧
    (chartCore pW vW cW oW 1000000).orders_range.getLast? =
      some (20 * chartStepSize 1000000) ∧
    |(1.5 : ℚ) * 1000000 - ((20 * chartStepSize 1000000 : ℤ) : ℚ)| ≤
      ((chartStepSize 1000000 : ℤ) : ℚ) :=
  ⟨(chart_orders_range_properties pW vW cW oW 1000000 (chartCore pW vW cW oW 1000000)
      (by rw [generate_breakeven_chart_data, if_neg (by decide)])).1,
    (chart_orders_range_properties pW vW cW oW 1000000 (chartCore pW vW cW oW 1000000)
      (by rw [generate_breakeven_chart_data, if_neg (by decide)])).2.1,
    (chart_orders_range_properties pW vW cW oW 1000000 (chartCore pW vW cW oW 1000000)
      (by rw [generate_breakeven_chart_data, if_neg (by decide)])).2.2.1,
    (chart_orders_range_properties pW vW cW oW 1000000 (chartCore pW vW cW oW 1000000)
      (by rw [generate_breakeven_chart_data, if_neg (by decide)])).2.2.2
      (by norm_num) (by norm_num [chartStepSize, pyTrunc]; decide)⟩

end LoopBox
